import Mathlib

/-!
Verification of the real-time facial emotion analysis pipeline of the
therapy-session assistant backend.

The definitions below are a shallow embedding of
`Backend/services/emotion_detection.py` (classes `MicroExpressionDetector`,
`EmotionFusionEngine`, `TherapyEmotionPipeline`) and of the session store in
`Backend/routes/emotion_routes.py`.  Real-valued quantities are modelled as
rationals; the geometric detectors are modelled as functions of the Euclidean
distances the Python code computes with `np.linalg.norm` (those distances are
nonnegative, which the theorems take as hypotheses where relevant).  External
model calls (MediaPipe landmark extraction, the FER classifier) are modelled as
per-frame oracle inputs: an `Option` holding the landmark geometry and an
`Option` holding the classifier result.
-/

namespace TherapyEmotion

/-- One geometric micro-signal as returned by the detectors of
`MicroExpressionDetector`: a detection flag, an intensity and a confidence. -/
structure MicroSignal where
  detected : Bool
  intensity : ℚ
  confidence : ℚ
deriving DecidableEq

/-- The blink-rate signal returned by `_calculate_blink_rate`; unlike the other
signals it carries `rate_per_min` instead of an intensity. -/
structure BlinkSignal where
  detected : Bool
  rate_per_min : ℚ
  confidence : ℚ
deriving DecidableEq

/-- The micro-smile signal returned by `_detect_micro_smile`, which also
carries a smile type (`"duchenne"` / `"social"` / `"none"`). -/
structure SmileSignal where
  detected : Bool
  smile_type : String
  intensity : ℚ
  confidence : ℚ
deriving DecidableEq

/-- The per-frame mapping from micro-signal name to signal, as produced by
`MicroExpressionDetector.analyze_micro_expressions`.  Each entry is an
`Option` because the fusion engine reads the mapping with
`micro.get(name, {})`, defaulting every field when the key is absent. -/
structure MicroMap where
  eyebrow_raise : Option MicroSignal
  lip_press : Option MicroSignal
  blink_rate : Option BlinkSignal
  eye_widening : Option MicroSignal
  jaw_tension : Option MicroSignal
  micro_smile : Option SmileSignal
deriving DecidableEq

/-- `micro.get(name, {}).get('intensity', 0)`. -/
def intensityOf : Option MicroSignal → ℚ
  | none => 0
  | some s => s.intensity

/-- `micro.get(name, {}).get('detected', False)`. -/
def detectedOf : Option MicroSignal → Bool
  | none => false
  | some s => s.detected

/-- `micro.get('blink_rate', {}).get('rate_per_min', 0)`. -/
def rateOf : Option BlinkSignal → ℚ
  | none => 0
  | some s => s.rate_per_min

/-- `micro.get('blink_rate', {}).get('detected', False)`. -/
def blinkDetectedOf : Option BlinkSignal → Bool
  | none => false
  | some s => s.detected

/-- `micro.get('micro_smile', {}).get('detected')` (a missing key is falsy). -/
def smileDetectedOf : Option SmileSignal → Bool
  | none => false
  | some s => s.detected

namespace MicroExpressionDetector

/-- `_detect_eyebrow_raise`, as a function of the two eyebrow-to-eye distances
and the face height (all computed with `np.linalg.norm` in the source). -/
def detect_eyebrow_raise (left_dist right_dist face_height : ℚ) : MicroSignal :=
  let avg_dist := (left_dist + right_dist) / 2
  let normalized := if face_height > 0 then avg_dist / face_height else 0
  { detected := decide (normalized > 8/100)
    intensity := min (normalized / (8/100)) 1
    confidence := 85/100 }

/-- `_detect_lip_press`, as a function of the vertical lip gap and the mouth
width. -/
def detect_lip_press (lip_gap mouth_width : ℚ) : MicroSignal :=
  let normalized := if mouth_width > 0 then lip_gap / mouth_width else 0
  { detected := decide (normalized < 8/100)
    intensity := max 0 ((8/100 - normalized) / (8/100))
    confidence := 80/100 }

/-- The eye-aspect-ratio formula `(v1 + v2) / (2 * h)` shared by
`_calculate_blink_rate` and `_detect_eye_widening`, with the source's guard
returning `0` when the horizontal distance is not positive. -/
def earOf (v1 v2 h : ℚ) : ℚ :=
  if h > 0 then (v1 + v2) / (2 * h) else 0

/-- The blinks-per-minute extrapolation of `_calculate_blink_rate`:
`(blink_count / len(history)) * 7 * 60`, with `0` for an empty history.
Note the frame rate is the literal `7` in the source ("assuming 7 FPS"). -/
def blink_rate_per_min (hist : List Bool) : ℚ :=
  if hist.length > 0 then ((hist.count true : ℚ) / hist.length) * 7 * 60 else 0

/-- The signal built by `_calculate_blink_rate` from the (already updated)
blink history. -/
def calculate_blink_rate (hist : List Bool) : BlinkSignal :=
  { detected := decide (blink_rate_per_min hist > 25)
    rate_per_min := blink_rate_per_min hist
    confidence := 70/100 }

/-- `_detect_eye_widening`, as a function of the two vertical eye distances and
the horizontal eye distance. -/
def detect_eye_widening (v1 v2 h : ℚ) : MicroSignal :=
  let ear := earOf v1 v2 h
  { detected := decide (ear > 35/100)
    intensity := if ear > 25/100 then min ((ear - 25/100) / (15/100)) 1 else 0
    confidence := 88/100 }

/-- `_detect_jaw_tension`, as a function of the jaw width and the jaw height
(chin to jaw-corner midpoint distance).  The intensity is
`max(0, (0.65 - ratio) / 0.15)` with no upper cap in the source. -/
def detect_jaw_tension (jaw_width jaw_height : ℚ) : MicroSignal :=
  let r := if jaw_width > 0 then jaw_height / jaw_width else 0
  { detected := decide (r < 65/100)
    intensity := max 0 ((65/100 - r) / (15/100))
    confidence := 75/100 }

/-- `_detect_micro_smile`, as a function of the signed vertical mouth lift
`upper_lip.y - mouth_center_y`.  The eye-crinkle comparison is the source's
unimplemented stub (`eye_crinkle = False`), so the type is always
`"social"`. -/
def detect_micro_smile (mouth_lift : ℚ) : SmileSignal :=
  { detected := decide (mouth_lift > 2)
    smile_type := "social"
    intensity := if mouth_lift > 0 then min (mouth_lift / 10) 1 else 0
    confidence := 82/100 }

end MicroExpressionDetector

/-- The classifier result of `EmotionDetector.detect_emotion` (dominant
emotion, its confidence, and the full probability dictionary, modelled as an
association list). -/
structure ClassifierResult where
  dominant_emotion : String
  confidence : ℚ
  all_emotions : List (String × ℚ)
deriving DecidableEq

/-- The `emotion_analysis` group of a fused frame record. -/
structure EmotionAnalysis where
  dominant_emotion : String
  confidence : ℚ
  emotion_probabilities : List (String × ℚ)
deriving DecidableEq

/-- The `composite_scores` group of a fused frame record. -/
structure CompositeScores where
  stress_score : ℚ
  anxiety_score : ℚ
  engagement_score : ℚ
  overall_confidence : ℚ
deriving DecidableEq

/-- The `clinical_insights` group of a fused frame record. -/
structure ClinicalInsights where
  primary_state : String
  stress_level : String
  anxiety_indicators : List String
  positive_indicators : List String
deriving DecidableEq

/-- One per-frame analysis record, i.e. the dictionary returned by
`EmotionFusionEngine.process_frame`.  The no-face record carries only
`timestamp`, `face_detected = false` and an `error` string; the face record
carries the four field groups and no `error` — absence of a dictionary key is
modelled with `none`. -/
structure FrameAnalysis where
  timestamp : ℚ
  face_detected : Bool
  emotion_analysis : Option EmotionAnalysis
  micro_expressions : Option MicroMap
  composite_scores : Option CompositeScores
  clinical_insights : Option ClinicalInsights
  error : Option String
deriving DecidableEq

namespace EmotionFusionEngine

open MicroExpressionDetector

/-- `_calculate_stress_score`: weighted sum of lip-press intensity, jaw-tension
intensity and the capped normalized blink rate, then `min(sum, 1.0)`. -/
def calculate_stress_score (m : MicroMap) : ℚ :=
  min (intensityOf m.lip_press * (3/10) + intensityOf m.jaw_tension * (3/10)
        + min (rateOf m.blink_rate / 50) 1 * (4/10)) 1

/-- `_calculate_anxiety_score`: weighted sum of eye-widening, eyebrow-raise and
lip-press intensities, then `min(sum, 1.0)`. -/
def calculate_anxiety_score (m : MicroMap) : ℚ :=
  min (intensityOf m.eye_widening * (4/10) + intensityOf m.eyebrow_raise * (3/10)
        + intensityOf m.lip_press * (3/10)) 1

/-- `_calculate_engagement`: baseline `0.7`, `+0.15` for a detected micro
smile, `+0.15` for a detected eyebrow raise, then `min(engagement, 1.0)`.
(The source also receives the landmarks but never reads them.) -/
def calculate_engagement (m : MicroMap) : ℚ :=
  let e1 : ℚ := 7/10
  let e2 := if smileDetectedOf m.micro_smile then e1 + 15/100 else e1
  let e3 := if detectedOf m.eyebrow_raise then e2 + 15/100 else e2
  min e3 1

/-- The confidences of the micro-signals that actually fired, in the source's
dictionary iteration order (`detected_micros` in `_fuse_signals`).  An absent
key contributes nothing because it is not among `micro.values()`. -/
def detectedConfidences (m : MicroMap) : List ℚ :=
  (match m.eyebrow_raise with
   | some s => if s.detected then [s.confidence] else []
   | none => []) ++
  (match m.lip_press with
   | some s => if s.detected then [s.confidence] else []
   | none => []) ++
  (match m.blink_rate with
   | some s => if s.detected then [s.confidence] else []
   | none => []) ++
  (match m.eye_widening with
   | some s => if s.detected then [s.confidence] else []
   | none => []) ++
  (match m.jaw_tension with
   | some s => if s.detected then [s.confidence] else []
   | none => []) ++
  (match m.micro_smile with
   | some s => if s.detected then [s.confidence] else []
   | none => [])

/-- The `{k: v for k, v in micro.items() if v.get('detected', False)}`
filtering used for the `micro_expressions` output group. -/
def filterDetected (m : MicroMap) : MicroMap :=
  { eyebrow_raise := if detectedOf m.eyebrow_raise then m.eyebrow_raise else none
    lip_press := if detectedOf m.lip_press then m.lip_press else none
    blink_rate := if blinkDetectedOf m.blink_rate then m.blink_rate else none
    eye_widening := if detectedOf m.eye_widening then m.eye_widening else none
    jaw_tension := if detectedOf m.jaw_tension then m.jaw_tension else none
    micro_smile := if smileDetectedOf m.micro_smile then m.micro_smile else none }

/-- `_generate_clinical_insights`.  The `anxiety` argument is passed by the
source but never read. -/
def generate_clinical_insights (emotion : String) (stress _anxiety engagement : ℚ)
    (m : MicroMap) : ClinicalInsights :=
  { primary_state := emotion
    stress_level :=
      if stress < 3/10 then "low" else if stress < 7/10 then "moderate" else "elevated"
    anxiety_indicators :=
      (if detectedOf m.lip_press then ["lip_press"] else []) ++
      (if blinkDetectedOf m.blink_rate then ["elevated_blink_rate"] else []) ++
      (if detectedOf m.jaw_tension then ["jaw_tension"] else [])
    positive_indicators :=
      (if smileDetectedOf m.micro_smile then ["micro_smile"] else []) ++
      (if detectedOf m.eyebrow_raise then ["eyebrow_raise_interest"] else []) ++
      (if engagement > 8/10 then ["high_engagement"] else []) }

/-- `_fuse_signals`: substitute the neutral default when the classifier failed,
compute the composite scores, apply the two sequential emotion overrides,
blend the confidences, and assemble the full frame record. -/
def fuse_signals (emotion : Option ClassifierResult) (micro : MicroMap) (t : ℚ) :
    FrameAnalysis :=
  let base_emotion := match emotion with | none => "neutral" | some e => e.dominant_emotion
  let base_confidence := match emotion with | none => (1/2 : ℚ) | some e => e.confidence
  let all_emotions := match emotion with | none => [] | some e => e.all_emotions
  let stress_score := calculate_stress_score micro
  let anxiety_score := calculate_anxiety_score micro
  let engagement_score := calculate_engagement micro
  let e1 := if stress_score > 7/10 ∧ base_emotion = "neutral" then "stressed" else base_emotion
  let e2 := if anxiety_score > 7/10 ∧ (e1 = "sad" ∨ e1 = "neutral") then "anxious" else e1
  let dconfs := detectedConfidences micro
  let micro_confidence := if dconfs.isEmpty then (1/2 : ℚ) else dconfs.sum / dconfs.length
  let combined_confidence := (6/10) * base_confidence + (4/10) * micro_confidence
  { timestamp := t
    face_detected := true
    emotion_analysis := some
      { dominant_emotion := e2
        confidence := combined_confidence
        emotion_probabilities := all_emotions }
    micro_expressions := some (filterDetected micro)
    composite_scores := some
      { stress_score := stress_score
        anxiety_score := anxiety_score
        engagement_score := engagement_score
        overall_confidence := combined_confidence }
    clinical_insights := some
      (generate_clinical_insights e2 stress_score anxiety_score engagement_score micro)
    error := none }

end EmotionFusionEngine

/-- The per-frame geometric quantities that the detectors derive from the
landmark array: every `np.linalg.norm` distance (nonnegative in the source)
plus the signed vertical mouth lift used by `_detect_micro_smile`. -/
structure GeomInputs where
  brow_left_dist : ℚ
  brow_right_dist : ℚ
  face_height : ℚ
  lip_gap : ℚ
  mouth_width : ℚ
  eye_v1 : ℚ
  eye_v2 : ℚ
  eye_h : ℚ
  jaw_width : ℚ
  jaw_height : ℚ
  mouth_lift : ℚ
deriving DecidableEq

/-- Append to a `collections.deque(maxlen=cap)`: add at the right, dropping
from the left when the capacity is exceeded. -/
def pushCap (cap : ℕ) (l : List α) (a : α) : List α :=
  let l2 := l ++ [a]
  if l2.length ≤ cap then l2 else l2.drop (l2.length - cap)

/-- The mutable temporal buffers owned by one `MicroExpressionDetector`:
`self.history` (deque of at most 10 per-frame signal mappings) and
`self.blink_history` (deque of at most 30 blink booleans). -/
structure DetectorState where
  history : List (ℚ × MicroMap)
  blink_history : List Bool
deriving DecidableEq

namespace MicroExpressionDetector

/-- `analyze_micro_expressions`: run the six detectors on the frame's
geometry, pushing the frame's blink boolean (EAR `< 0.2`) onto the blink
history before the rate is read (the push happens inside
`_calculate_blink_rate` in the source) and the resulting signal mapping onto
`self.history`.  Returns the updated buffers and the mapping. -/
def analyze_micro_expressions (st : DetectorState) (g : GeomInputs) (t : ℚ) :
    DetectorState × MicroMap :=
  let ear := earOf g.eye_v1 g.eye_v2 g.eye_h
  let newBlinks := pushCap 30 st.blink_history (decide (ear < 1/5))
  let m : MicroMap :=
    { eyebrow_raise := some (detect_eyebrow_raise g.brow_left_dist g.brow_right_dist g.face_height)
      lip_press := some (detect_lip_press g.lip_gap g.mouth_width)
      blink_rate := some (calculate_blink_rate newBlinks)
      eye_widening := some (detect_eye_widening g.eye_v1 g.eye_v2 g.eye_h)
      jaw_tension := some (detect_jaw_tension g.jaw_width g.jaw_height)
      micro_smile := some (detect_micro_smile g.mouth_lift) }
  ({ history := pushCap 10 st.history (t, m), blink_history := newBlinks }, m)

end MicroExpressionDetector

namespace EmotionFusionEngine

open MicroExpressionDetector

/-- The record returned by `EmotionFusionEngine.process_frame` when the
landmark extractor finds no face. -/
def noFaceRecord (t : ℚ) : FrameAnalysis :=
  { timestamp := t
    face_detected := false
    emotion_analysis := none
    micro_expressions := none
    composite_scores := none
    clinical_insights := none
    error := some "No face detected" }

/-- `EmotionFusionEngine.process_frame`.  The two external model calls are
oracle inputs: `landmarks` is the landmark extractor's geometry (or `none`
for no face), `emotion_result` the classifier's output (or `none` when it
failed).  When no face is found, the detector buffers are untouched and the
no-face record is returned; otherwise the micro-signals are analysed and
fused with the classifier result. -/
def process_frame (landmarks : Option GeomInputs) (emotion_result : Option ClassifierResult)
    (st : DetectorState) (t : ℚ) : DetectorState × FrameAnalysis :=
  match landmarks with
  | none => (st, noFaceRecord t)
  | some g =>
      let p := analyze_micro_expressions st g t
      (p.1, fuse_signals emotion_result p.2 t)

end EmotionFusionEngine

/-- One frame's worth of input to the pipeline: the decoded image is reduced
to what the two external models report for it, plus the timestamp. -/
structure FrameInput where
  landmarks : Option GeomInputs
  classifier : Option ClassifierResult
  timestamp : ℚ
deriving DecidableEq

/-- `TherapyEmotionPipeline`: the configured frame rate, the fusion engine's
detector buffers, the `self.session_data` list and the `self.running` flag. -/
structure TherapyEmotionPipeline where
  fps : ℚ
  detector : DetectorState
  session_data : List FrameAnalysis
  running : Bool
deriving DecidableEq

namespace TherapyEmotionPipeline

/-- `TherapyEmotionPipeline.__init__(fps)`: empty buffers, empty
`session_data`, not running. -/
def init (fps : ℚ) : TherapyEmotionPipeline :=
  { fps := fps
    detector := { history := [], blink_history := [] }
    session_data := []
    running := false }

/-- `TherapyEmotionPipeline.process_frame`: delegates to
`self.fusion_engine.process_frame(frame, timestamp)` and returns its result.
The only state it touches is the fusion engine's detector buffers (mutated
inside the call); in particular `self.session_data` is not modified. -/
def process_frame (p : TherapyEmotionPipeline) (inp : FrameInput) :
    TherapyEmotionPipeline × FrameAnalysis :=
  let r := EmotionFusionEngine.process_frame inp.landmarks inp.classifier p.detector inp.timestamp
  ({ p with detector := r.1 }, r.2)

/-- Processing a whole stream of frames through `process_frame`, discarding
the returned records (as the HTTP route does with respect to
`session_data`). -/
def processFrames (p : TherapyEmotionPipeline) : List FrameInput → TherapyEmotionPipeline
  | [] => p
  | inp :: rest => processFrames (p.process_frame inp).1 rest

end TherapyEmotionPipeline

/-- The session summary dictionary built by `generate_session_summary`. -/
structure SessionSummary where
  duration_seconds : ℚ
  total_frames_analyzed : ℕ
  emotion_distribution : List (String × ℚ)
  avg_stress_score : ℚ
  avg_anxiety_score : ℚ
  avg_engagement_score : ℚ
  predominant_emotion : String
deriving DecidableEq

/-- `frame['emotion_analysis']['dominant_emotion']`.  The source indexes the
dictionary directly; every record appended to `session_data` is a face record
(the appenders guard on `face_detected`), so the `none` default is never
exercised on the source's own data. -/
def dominantOf (f : FrameAnalysis) : String :=
  match f.emotion_analysis with
  | none => ""
  | some ea => ea.dominant_emotion

/-- `frame['composite_scores']`, with the same caveat as `dominantOf`. -/
def scoresOf (f : FrameAnalysis) : CompositeScores :=
  match f.composite_scores with
  | none => { stress_score := 0, anxiety_score := 0, engagement_score := 0, overall_confidence := 0 }
  | some s => s

/-- `max(emotion_counts, key=emotion_counts.get)`: the first key (in
insertion order, i.e. first-occurrence order) whose count is maximal. -/
def predominantOf (emotions : List String) : String :=
  emotions.dedup.foldl
    (fun best e => if emotions.count e > emotions.count best then e else best)
    (emotions.dedup.headD "")

namespace TherapyEmotionPipeline

/-- `TherapyEmotionPipeline.generate_session_summary`: `None` when
`session_data` is empty, otherwise the aggregated summary.  The emotion
distribution is each dominant emotion's frame count divided by the total
frame count, keyed in first-occurrence order exactly as the Python
`emotion_counts` dictionary is. -/
def generate_session_summary (p : TherapyEmotionPipeline) : Option SessionSummary :=
  if h : p.session_data = [] then none
  else
    let frames := p.session_data
    let total_frames := frames.length
    let emotions := frames.map dominantOf
    some
      { duration_seconds := (frames.getLast h).timestamp
        total_frames_analyzed := total_frames
        emotion_distribution :=
          emotions.dedup.map (fun e => (e, (emotions.count e : ℚ) / total_frames))
        avg_stress_score := (frames.map (fun f => (scoresOf f).stress_score)).sum / total_frames
        avg_anxiety_score := (frames.map (fun f => (scoresOf f).anxiety_score)).sum / total_frames
        avg_engagement_score :=
          (frames.map (fun f => (scoresOf f).engagement_score)).sum / total_frames
        predominant_emotion := predominantOf emotions }

end TherapyEmotionPipeline

/-! The session store of `Backend/routes/emotion_routes.py`: the module-level
dictionary `active_emotion_sessions`, keyed by session identifier.  A Python
dictionary is modelled as an association list in insertion order whose
assignment updates the existing key in place or appends a new binding. -/

/-- One value of `active_emotion_sessions`: the session's pipeline, the
owning therapist, the start time, the processed-frame counter and the
`recent_emotions` list (kept to the last 10 face records). -/
structure SessionEntry where
  pipeline : TherapyEmotionPipeline
  therapist_id : String
  started_at : ℚ
  frame_count : ℕ
  recent_emotions : List FrameAnalysis
deriving DecidableEq

/-- The session store: `active_emotion_sessions`. -/
abbrev SessionStore := List (String × SessionEntry)

/-- Python dictionary assignment `store[k] = v`: replace the binding in place
when the key exists, else append it. -/
def dictSet (store : SessionStore) (k : String) (v : SessionEntry) : SessionStore :=
  if store.any (fun p => p.1 = k) then
    store.map (fun p => if p.1 = k then (k, v) else p)
  else store ++ [(k, v)]

/-- Python `del store[k]`. -/
def dictDel (store : SessionStore) (k : String) : SessionStore :=
  store.filter (fun p => ¬ p.1 = k)

/-- Python `store[k]` / `store.get(k)`. -/
def dictLookup (store : SessionStore) (k : String) : Option SessionEntry :=
  (store.find? (fun p => p.1 = k)).map Prod.snd

/-- The entry created by `start_emotion_tracking`: a fresh
`TherapyEmotionPipeline(fps=7)` with empty buffers and a zero frame count. -/
def freshEntry (uid : String) (t : ℚ) : SessionEntry :=
  { pipeline := TherapyEmotionPipeline.init 7
    therapist_id := uid
    started_at := t
    frame_count := 0
    recent_emotions := [] }

/-- The store mutation of the `start_emotion_tracking` route:
`active_emotion_sessions[session_id] = {...}` with a fresh pipeline —
dictionary assignment, so an existing entry for the identifier is
superseded, never duplicated. -/
def start_emotion_tracking (store : SessionStore) (sid uid : String) (t : ℚ) :
    SessionStore :=
  dictSet store sid (freshEntry uid t)

/-- The per-entry effect of the `analyze_frame` route: process the frame
through the session's pipeline (mutating its detector buffers in place) and,
when a face was detected, bump `frame_count` and push the record onto
`recent_emotions` (popping the front beyond 10). -/
def stepEntry (e : SessionEntry) (inp : FrameInput) : SessionEntry :=
  let r := e.pipeline.process_frame inp
  if r.2.face_detected then
    { e with
        pipeline := r.1
        frame_count := e.frame_count + 1
        recent_emotions := pushCap 10 e.recent_emotions r.2 }
  else { e with pipeline := r.1 }

/-- The store mutation of the `analyze_frame` route: the entry for the
identifier (if any) is updated in place; no key is added or removed. -/
def analyze_frame (store : SessionStore) (sid : String) (inp : FrameInput) :
    SessionStore :=
  store.map (fun p => if p.1 = sid then (p.1, stepEntry p.2 inp) else p)

/-- The store mutation of the `stop_emotion_tracking` route:
`del active_emotion_sessions[session_id]`. -/
def stop_emotion_tracking (store : SessionStore) (sid : String) : SessionStore :=
  dictDel store sid

/-- The states of `active_emotion_sessions` reachable through the emotion
routes, starting from the empty module-level dictionary. -/
inductive Reachable : SessionStore → Prop where
  | empty : Reachable []
  | start (s : SessionStore) (sid uid : String) (t : ℚ) :
      Reachable s → Reachable (start_emotion_tracking s sid uid t)
  | frame (s : SessionStore) (sid : String) (inp : FrameInput) :
      Reachable s → Reachable (analyze_frame s sid inp)
  | stop (s : SessionStore) (sid : String) :
      Reachable s → Reachable (stop_emotion_tracking s sid)

/-! Concrete sample data used to instantiate the theorems below. -/

/-- A micro-signal mapping with every key absent. -/
def emptyMicroMap : MicroMap :=
  { eyebrow_raise := none, lip_press := none, blink_rate := none,
    eye_widening := none, jaw_tension := none, micro_smile := none }

/-- A micro-signal mapping carrying an out-of-range (negative) lip-press
intensity. -/
def negLipMicroMap : MicroMap :=
  { emptyMicroMap with
      lip_press := some { detected := false, intensity := -1, confidence := 8/10 } }

/-- A 30-frame blink window with 15 blink-flagged frames. -/
def blinkWindow15 : List Bool := List.replicate 15 true ++ List.replicate 15 false

/-- A concrete face-detected frame record. -/
def sampleFaceFrame : FrameAnalysis := EmotionFusionEngine.fuse_signals none emptyMicroMap 0

/-- A pipeline whose stored sequence holds the one face-detected record. -/
def samplePipeline : TherapyEmotionPipeline :=
  { TherapyEmotionPipeline.init 7 with session_data := [sampleFaceFrame] }

/-! Theorems. -/

/-- C7: for every frame on which the landmark extractor finds no face,
`EmotionFusionEngine.process_frame` returns a record with
`face_detected = false` and with no `composite_scores`, no `emotion_analysis`
and no `micro_expressions` fields, and leaves the detector buffers
untouched. -/
theorem c7_no_face_record (cls : Option ClassifierResult) (st : DetectorState) (t : ℚ) :
    (EmotionFusionEngine.process_frame none cls st t).2.face_detected = false ∧
    (EmotionFusionEngine.process_frame none cls st t).2.composite_scores = none ∧
    (EmotionFusionEngine.process_frame none cls st t).2.emotion_analysis = none ∧
    (EmotionFusionEngine.process_frame none cls st t).2.micro_expressions = none := by
  simp [EmotionFusionEngine.process_frame, EmotionFusionEngine.noFaceRecord]

/-- C8: when the classifier returns no result for a face-detected frame, the
fusion engine behaves exactly as if the classifier had reported the default
`"neutral"` with confidence `0.5` and an empty probability map, and it still
produces a complete record: `face_detected = true`, all four field groups
present, an empty probability map, and no error. -/
theorem c8_classifier_fallback (micro : MicroMap) (t : ℚ) :
    EmotionFusionEngine.fuse_signals none micro t =
      EmotionFusionEngine.fuse_signals
        (some { dominant_emotion := "neutral", confidence := 1/2, all_emotions := [] })
        micro t ∧
    (EmotionFusionEngine.fuse_signals none micro t).face_detected = true ∧
    (EmotionFusionEngine.fuse_signals none micro t).emotion_analysis.isSome = true ∧
    ((EmotionFusionEngine.fuse_signals none micro t).emotion_analysis.map
        (fun ea => ea.emotion_probabilities)) = some [] ∧
    (EmotionFusionEngine.fuse_signals none micro t).micro_expressions.isSome = true ∧
    (EmotionFusionEngine.fuse_signals none micro t).composite_scores.isSome = true ∧
    (EmotionFusionEngine.fuse_signals none micro t).clinical_insights.isSome = true ∧
    (EmotionFusionEngine.fuse_signals none micro t).error = none := by
  refine ⟨rfl, ?_, ?_, ?_, ?_, ?_, ?_, ?_⟩ <;>
    simp [EmotionFusionEngine.fuse_signals]

/-- C10: for every micro-signal mapping the engagement score starts from the
baseline `0.7` and is only ever boosted, so it is at least `0.7` and its only
possible values are `0.7`, `0.85` and `1.0`; the engine can never report low
engagement. -/
theorem c10_engagement_floor (m : MicroMap) :
    7/10 ≤ EmotionFusionEngine.calculate_engagement m ∧
    (EmotionFusionEngine.calculate_engagement m = 7/10 ∨
     EmotionFusionEngine.calculate_engagement m = 85/100 ∨
     EmotionFusionEngine.calculate_engagement m = 1) := by
  unfold EmotionFusionEngine.calculate_engagement
  rcases hs : smileDetectedOf m.micro_smile <;>
    rcases hb : detectedOf m.eyebrow_raise <;> norm_num

/-- C6: for every classifier result and micro-signal mapping, the reported
dominant emotion is `"stressed"` when the stress score exceeds `0.7` and the
classifier said `"neutral"`; otherwise it is `"anxious"` when the anxiety
score exceeds `0.7` and the classifier said `"sad"` or `"neutral"`; any other
classifier output is reported unchanged.  (The stress override runs first in
the source, so when it fires the anxiety rule sees `"stressed"` and leaves it
alone.) -/
theorem c6_emotion_override (e : ClassifierResult) (micro : MicroMap) (t : ℚ) :
    ((EmotionFusionEngine.fuse_signals (some e) micro t).emotion_analysis.map
        (fun ea => ea.dominant_emotion)) =
    some
      (if EmotionFusionEngine.calculate_stress_score micro > 7/10 ∧
            e.dominant_emotion = "neutral" then "stressed"
       else if EmotionFusionEngine.calculate_anxiety_score micro > 7/10 ∧
                (e.dominant_emotion = "sad" ∨ e.dominant_emotion = "neutral") then "anxious"
       else e.dominant_emotion) := by
  simp only [EmotionFusionEngine.fuse_signals, Option.map_some]
  split_ifs <;> simp_all

/-- C2 counterexample: on fully degenerate jaw geometry (all jaw landmarks
coincident, so jaw width and jaw height are both `0`), the jaw-tension ratio
branch yields `0` and the intensity `max(0, (0.65 - 0) / 0.15) = 13/3 > 1`,
refuting the claim that every micro-signal intensity lies in `[0,1]` for
every landmark input. -/
theorem c2_jaw_tension_exceeds_one :
    (MicroExpressionDetector.detect_jaw_tension 0 0).intensity = 13/3 ∧
    ¬ (MicroExpressionDetector.detect_jaw_tension 0 0).intensity ≤ 1 := by
  constructor <;> norm_num [MicroExpressionDetector.detect_jaw_tension]

/-- C2 (amended): for every landmark input with nonnegative reference
distances, every micro-signal calculation is total (no division by zero: the
zero-denominator branches return `0`) and returns a confidence in `[0,1]`;
the eyebrow-raise, lip-press, eye-widening and micro-smile intensities lie in
`[0,1]` and the blink rate is nonnegative; the jaw-tension intensity is
nonnegative and bounded by `13/3`, but lies in `[0,1]` only when the jaw
height/width ratio is at least `1/2`. -/
theorem c2_micro_signal_ranges
    (ld rd fh lg mw v1 v2 h jw jh ml : ℚ) (hist : List Bool)
    (hld : 0 ≤ ld) (hrd : 0 ≤ rd) (hlg : 0 ≤ lg) (hjh : 0 ≤ jh) :
    (0 ≤ (MicroExpressionDetector.detect_eyebrow_raise ld rd fh).intensity ∧
      (MicroExpressionDetector.detect_eyebrow_raise ld rd fh).intensity ≤ 1 ∧
      (MicroExpressionDetector.detect_eyebrow_raise ld rd fh).confidence = 85/100) ∧
    (0 ≤ (MicroExpressionDetector.detect_lip_press lg mw).intensity ∧
      (MicroExpressionDetector.detect_lip_press lg mw).intensity ≤ 1 ∧
      (MicroExpressionDetector.detect_lip_press lg mw).confidence = 80/100) ∧
    (0 ≤ (MicroExpressionDetector.detect_eye_widening v1 v2 h).intensity ∧
      (MicroExpressionDetector.detect_eye_widening v1 v2 h).intensity ≤ 1 ∧
      (MicroExpressionDetector.detect_eye_widening v1 v2 h).confidence = 88/100) ∧
    (0 ≤ (MicroExpressionDetector.detect_micro_smile ml).intensity ∧
      (MicroExpressionDetector.detect_micro_smile ml).intensity ≤ 1 ∧
      (MicroExpressionDetector.detect_micro_smile ml).confidence = 82/100) ∧
    (0 ≤ MicroExpressionDetector.blink_rate_per_min hist ∧
      (MicroExpressionDetector.calculate_blink_rate hist).confidence = 70/100) ∧
    (0 ≤ (MicroExpressionDetector.detect_jaw_tension jw jh).intensity ∧
      (MicroExpressionDetector.detect_jaw_tension jw jh).intensity ≤ 13/3 ∧
      (1/2 ≤ (if jw > 0 then jh / jw else 0) →
        (MicroExpressionDetector.detect_jaw_tension jw jh).intensity ≤ 1)) := by
  refine ⟨⟨?_, ?_, rfl⟩, ⟨?_, ?_, rfl⟩, ⟨?_, ?_, rfl⟩, ⟨?_, ?_, rfl⟩, ⟨?_, rfl⟩,
    ⟨?_, ?_, ?_⟩⟩
  · unfold MicroExpressionDetector.detect_eyebrow_raise
    have hnorm : (0 : ℚ) ≤ (if fh > 0 then (ld + rd) / 2 / fh else 0) := by
      split
      · positivity
      · exact le_refl 0
    simp only
    exact le_min (by positivity) (by norm_num)
  · unfold MicroExpressionDetector.detect_eyebrow_raise
    simp only
    exact min_le_right _ _
  · unfold MicroExpressionDetector.detect_lip_press
    simp only
    exact le_max_left _ _
  · unfold MicroExpressionDetector.detect_lip_press
    have hnorm : (0 : ℚ) ≤ (if mw > 0 then lg / mw else 0) := by
      split
      · positivity
      · exact le_refl 0
    simp only
    rw [max_le_iff]
    refine ⟨by norm_num, ?_⟩
    rw [div_le_one (by norm_num)]
    linarith
  · unfold MicroExpressionDetector.detect_eye_widening
    simp only
    split
    · exact le_min (by linarith [div_nonneg (by linarith : (0:ℚ) ≤ _) (by norm_num : (0:ℚ) ≤ 15/100)]) (by norm_num)
    · exact le_refl 0
  · unfold MicroExpressionDetector.detect_eye_widening
    simp only
    split
    · exact min_le_right _ _
    · norm_num
  · unfold MicroExpressionDetector.detect_micro_smile
    simp only
    split
    · exact le_min (by positivity) (by norm_num)
    · exact le_refl 0
  · unfold MicroExpressionDetector.detect_micro_smile
    simp only
    split
    · exact min_le_right _ _
    · norm_num
  · unfold MicroExpressionDetector.blink_rate_per_min
    split
    · positivity
    · exact le_refl 0
  · unfold MicroExpressionDetector.detect_jaw_tension
    simp only
    exact le_max_left _ _
  · unfold MicroExpressionDetector.detect_jaw_tension
    have hr : (0 : ℚ) ≤ (if jw > 0 then jh / jw else 0) := by
      split
      · positivity
      · exact le_refl 0
    simp only
    rw [max_le_iff]
    refine ⟨by norm_num, ?_⟩
    rw [div_le_iff₀ (by norm_num : (0:ℚ) < 15/100)]
    linarith
  · intro hhalf
    unfold MicroExpressionDetector.detect_jaw_tension
    simp only
    rw [max_le_iff]
    refine ⟨by norm_num, ?_⟩
    rw [div_le_one (by norm_num)]
    linarith

/-- C2 witness: the amended range theorem instantiated at fully degenerate
geometry (every distance `0`, empty blink history). -/
theorem c2_micro_signal_ranges_witness :
    ((0:ℚ) ≤ 0 ∧ (0:ℚ) ≤ 0 ∧ (0:ℚ) ≤ 0 ∧ (0:ℚ) ≤ 0) ∧
    ((0 ≤ (MicroExpressionDetector.detect_eyebrow_raise 0 0 0).intensity ∧
      (MicroExpressionDetector.detect_eyebrow_raise 0 0 0).intensity ≤ 1 ∧
      (MicroExpressionDetector.detect_eyebrow_raise 0 0 0).confidence = 85/100) ∧
    (0 ≤ (MicroExpressionDetector.detect_lip_press 0 0).intensity ∧
      (MicroExpressionDetector.detect_lip_press 0 0).intensity ≤ 1 ∧
      (MicroExpressionDetector.detect_lip_press 0 0).confidence = 80/100) ∧
    (0 ≤ (MicroExpressionDetector.detect_eye_widening 0 0 0).intensity ∧
      (MicroExpressionDetector.detect_eye_widening 0 0 0).intensity ≤ 1 ∧
      (MicroExpressionDetector.detect_eye_widening 0 0 0).confidence = 88/100) ∧
    (0 ≤ (MicroExpressionDetector.detect_micro_smile 0).intensity ∧
      (MicroExpressionDetector.detect_micro_smile 0).intensity ≤ 1 ∧
      (MicroExpressionDetector.detect_micro_smile 0).confidence = 82/100) ∧
    (0 ≤ MicroExpressionDetector.blink_rate_per_min [] ∧
      (MicroExpressionDetector.calculate_blink_rate []).confidence = 70/100) ∧
    (0 ≤ (MicroExpressionDetector.detect_jaw_tension 0 0).intensity ∧
      (MicroExpressionDetector.detect_jaw_tension 0 0).intensity ≤ 13/3 ∧
      (1/2 ≤ (if (0:ℚ) > 0 then (0:ℚ) / 0 else 0) →
        (MicroExpressionDetector.detect_jaw_tension 0 0).intensity ≤ 1))) :=
  ⟨⟨le_refl 0, le_refl 0, le_refl 0, le_refl 0⟩,
   c2_micro_signal_ranges 0 0 0 0 0 0 0 0 0 0 0 []
     (le_refl 0) (le_refl 0) (le_refl 0) (le_refl 0)⟩

/-- C5 counterexample: a micro-signal mapping with a (one) negative lip-press
intensity drives the stress score to `-3/10`, outside `[0,1]` — the source
applies `min(sum, 1.0)` but no lower clamp. -/
theorem c5_negative_stress_score :
    EmotionFusionEngine.calculate_stress_score negLipMicroMap = -3/10 ∧
    ¬ 0 ≤ EmotionFusionEngine.calculate_stress_score negLipMicroMap := by
  have h : EmotionFusionEngine.calculate_stress_score negLipMicroMap = -3/10 := by
    norm_num [EmotionFusionEngine.calculate_stress_score, negLipMicroMap, emptyMicroMap,
      intensityOf, rateOf]
  exact ⟨h, by rw [h]; norm_num⟩

/-- C5 (amended): whenever every intensity and rate read from the mapping is
nonnegative — as every value the detectors actually produce is — each of the
stress, anxiety and engagement scores lies in `[0,1]` (the engagement score
unconditionally so); with negative out-of-range inputs the stress and anxiety
scores can escape below `0` because the source clamps only from above. -/
theorem c5_composite_scores_clamped (m : MicroMap)
    (hlip : 0 ≤ intensityOf m.lip_press) (hjaw : 0 ≤ intensityOf m.jaw_tension)
    (hrate : 0 ≤ rateOf m.blink_rate) (heye : 0 ≤ intensityOf m.eye_widening)
    (hbrow : 0 ≤ intensityOf m.eyebrow_raise) :
    (0 ≤ EmotionFusionEngine.calculate_stress_score m ∧
      EmotionFusionEngine.calculate_stress_score m ≤ 1) ∧
    (0 ≤ EmotionFusionEngine.calculate_anxiety_score m ∧
      EmotionFusionEngine.calculate_anxiety_score m ≤ 1) ∧
    (0 ≤ EmotionFusionEngine.calculate_engagement m ∧
      EmotionFusionEngine.calculate_engagement m ≤ 1) := by
  refine ⟨⟨?_, min_le_right _ _⟩, ⟨?_, min_le_right _ _⟩, ⟨?_, min_le_right _ _⟩⟩
  · unfold EmotionFusionEngine.calculate_stress_score
    refine le_min ?_ (by norm_num)
    have h1 : (0:ℚ) ≤ intensityOf m.lip_press * (3/10) := mul_nonneg hlip (by norm_num)
    have h2 : (0:ℚ) ≤ intensityOf m.jaw_tension * (3/10) := mul_nonneg hjaw (by norm_num)
    have h3 : (0:ℚ) ≤ min (rateOf m.blink_rate / 50) 1 * (4/10) :=
      mul_nonneg (le_min (by positivity) (by norm_num)) (by norm_num)
    linarith
  · unfold EmotionFusionEngine.calculate_anxiety_score
    refine le_min ?_ (by norm_num)
    have h1 : (0:ℚ) ≤ intensityOf m.eye_widening * (4/10) := mul_nonneg heye (by norm_num)
    have h2 : (0:ℚ) ≤ intensityOf m.eyebrow_raise * (3/10) := mul_nonneg hbrow (by norm_num)
    have h3 : (0:ℚ) ≤ intensityOf m.lip_press * (3/10) := mul_nonneg hlip (by norm_num)
    linarith
  · unfold EmotionFusionEngine.calculate_engagement
    rcases smileDetectedOf m.micro_smile <;> rcases detectedOf m.eyebrow_raise <;> norm_num

/-- C5 witness: the amended clamping theorem instantiated at the all-absent
mapping (every getter defaults to `0`). -/
theorem c5_composite_scores_clamped_witness :
    (0 ≤ intensityOf emptyMicroMap.lip_press ∧ 0 ≤ intensityOf emptyMicroMap.jaw_tension ∧
      0 ≤ rateOf emptyMicroMap.blink_rate ∧ 0 ≤ intensityOf emptyMicroMap.eye_widening ∧
      0 ≤ intensityOf emptyMicroMap.eyebrow_raise) ∧
    ((0 ≤ EmotionFusionEngine.calculate_stress_score emptyMicroMap ∧
      EmotionFusionEngine.calculate_stress_score emptyMicroMap ≤ 1) ∧
    (0 ≤ EmotionFusionEngine.calculate_anxiety_score emptyMicroMap ∧
      EmotionFusionEngine.calculate_anxiety_score emptyMicroMap ≤ 1) ∧
    (0 ≤ EmotionFusionEngine.calculate_engagement emptyMicroMap ∧
      EmotionFusionEngine.calculate_engagement emptyMicroMap ≤ 1)) :=
  ⟨⟨le_refl 0, le_refl 0, le_refl 0, le_refl 0, le_refl 0⟩,
   c5_composite_scores_clamped emptyMicroMap
     (le_refl 0) (le_refl 0) (le_refl 0) (le_refl 0) (le_refl 0)⟩

/-- C3 counterexample: the extrapolation ignores the pipeline's configured
frame rate.  A pipeline configured at `14` fps with 15 blink-flagged frames
out of 30 still extrapolates to `(15/30) * 7 * 60 = 210` blinks/minute, while
the claimed formula `(k/n) * f * 60` with `f = 14` gives `420`. -/
theorem c3_configured_fps_ignored :
    (TherapyEmotionPipeline.init 14).fps = 14 ∧
    MicroExpressionDetector.blink_rate_per_min blinkWindow15 = 210 ∧
    ((blinkWindow15.count true : ℚ) / blinkWindow15.length) *
        (TherapyEmotionPipeline.init 14).fps * 60 = 420 ∧
    (210 : ℚ) ≠ 420 := by
  refine ⟨rfl, ?_, ?_, by norm_num⟩ <;>
    norm_num [blinkWindow15, MicroExpressionDetector.blink_rate_per_min,
      TherapyEmotionPipeline.init, List.count_append, List.count_replicate]

/-- C3 (amended): the blinks-per-minute extrapolation always uses the literal
constant `7` frames per second — `(k/n) * 7 * 60` for `k` blink-flagged
frames out of `n` in the window — so it agrees with the claimed
`(k/n) * fps * 60` exactly when the configured rate is `7`, and in the
concrete case of 15 flagged frames out of 30 it yields `210`. -/
theorem c3_blink_rate_constant_seven (p : TherapyEmotionPipeline)
    (hist : List Bool) (hne : hist ≠ []) :
    MicroExpressionDetector.blink_rate_per_min hist =
      ((hist.count true : ℚ) / hist.length) * 7 * 60 ∧
    (p.fps = 7 →
      MicroExpressionDetector.blink_rate_per_min hist =
        ((hist.count true : ℚ) / hist.length) * p.fps * 60) ∧
    (MicroExpressionDetector.calculate_blink_rate hist).rate_per_min =
      MicroExpressionDetector.blink_rate_per_min hist ∧
    MicroExpressionDetector.blink_rate_per_min blinkWindow15 = 210 := by
  have hlen : hist.length > 0 := List.length_pos.mpr hne
  have h7 : MicroExpressionDetector.blink_rate_per_min hist =
      ((hist.count true : ℚ) / hist.length) * 7 * 60 := by
    unfold MicroExpressionDetector.blink_rate_per_min
    rw [if_pos hlen]
  refine ⟨h7, fun hfps => by rw [hfps]; exact h7, rfl, ?_⟩
  norm_num [blinkWindow15, MicroExpressionDetector.blink_rate_per_min,
    List.count_append, List.count_replicate]

/-- C3 witness: the amended theorem instantiated at a pipeline configured at
`7` fps and the 15-of-30 blink window. -/
theorem c3_blink_rate_constant_seven_witness :
    blinkWindow15 ≠ [] ∧
    (MicroExpressionDetector.blink_rate_per_min blinkWindow15 =
      ((blinkWindow15.count true : ℚ) / blinkWindow15.length) * 7 * 60 ∧
    ((TherapyEmotionPipeline.init 7).fps = 7 →
      MicroExpressionDetector.blink_rate_per_min blinkWindow15 =
        ((blinkWindow15.count true : ℚ) / blinkWindow15.length) *
          (TherapyEmotionPipeline.init 7).fps * 60) ∧
    (MicroExpressionDetector.calculate_blink_rate blinkWindow15).rate_per_min =
      MicroExpressionDetector.blink_rate_per_min blinkWindow15 ∧
    MicroExpressionDetector.blink_rate_per_min blinkWindow15 = 210) :=
  ⟨by simp [blinkWindow15],
   c3_blink_rate_constant_seven (TherapyEmotionPipeline.init 7) blinkWindow15
     (by simp [blinkWindow15])⟩

/-- Processing any stream of frames through the pipeline never changes
`session_data`: `TherapyEmotionPipeline.process_frame` only touches the
detector buffers. -/
theorem processFrames_session_data (inputs : List FrameInput) (p : TherapyEmotionPipeline) :
    (TherapyEmotionPipeline.processFrames p inputs).session_data = p.session_data := by
  induction inputs generalizing p with
  | nil => rfl
  | cons i rest ih =>
      rw [TherapyEmotionPipeline.processFrames, ih]
      rfl

/-- C1: the claim that `process_frame` appends the produced record to the
sequence consumed by `generate_session_summary` fails on the code.
`TherapyEmotionPipeline.process_frame` returns the fusion engine's record to
the caller but leaves `session_data` unchanged, so after any number of
face-detected frames processed from a fresh pipeline the sequence is still
empty and the summary is `none` — the appending happens only in the webcam
loop `start_realtime_analysis`, which the HTTP frame route never uses. -/
theorem c1_process_frame_never_appends (p : TherapyEmotionPipeline) (inp : FrameInput)
    (inputs : List FrameInput) (fps : ℚ) :
    (p.process_frame inp).1.session_data = p.session_data ∧
    (p.process_frame inp).2 =
      (EmotionFusionEngine.process_frame inp.landmarks inp.classifier
        p.detector inp.timestamp).2 ∧
    (TherapyEmotionPipeline.processFrames (TherapyEmotionPipeline.init fps) inputs).session_data
      = [] ∧
    TherapyEmotionPipeline.generate_session_summary
      (TherapyEmotionPipeline.processFrames (TherapyEmotionPipeline.init fps) inputs) = none := by
  have hempty :
      (TherapyEmotionPipeline.processFrames (TherapyEmotionPipeline.init fps) inputs).session_data
        = [] := processFrames_session_data inputs (TherapyEmotionPipeline.init fps)
  refine ⟨rfl, rfl, hempty, ?_⟩
  rw [TherapyEmotionPipeline.generate_session_summary, dif_pos hempty]

/-- Summing `f a / c` over a list is summing `f` and dividing once. -/
theorem sum_map_div_eq (l : List α) (f : α → ℚ) (c : ℚ) :
    (l.map fun a => f a / c).sum = (l.map f).sum / c := by
  induction l with
  | nil => simp
  | cons x xs ih => simp [ih, add_div]

/-- Summing each distinct element's count-fraction over a nonempty list gives
exactly `1`. -/
theorem dedup_count_ratio_sum (emotions : List String) (hne : emotions ≠ []) :
    (emotions.dedup.map fun e => ((emotions.count e : ℚ) / emotions.length)).sum = 1 := by
  rw [sum_map_div_eq]
  have h1 : (emotions.dedup.map fun e => ((emotions.count e : ℚ))).sum
      = ((emotions.dedup.map fun e => emotions.count e).sum : ℚ) := by
    rw [Nat.cast_list_sum, List.map_map]
    rfl
  rw [h1, List.sum_map_count_dedup_eq_length]
  have hlen : (emotions.length : ℚ) ≠ 0 := by
    exact_mod_cast (List.length_pos.mpr hne).ne'
  exact div_self hlen

/-- C9: `generate_session_summary` of an empty session is `none` rather than
an error; and whenever the stored sequence contains a face-detected record
the summary's emotion distribution — each emotion's frame count divided by
the total frame count — has fractions summing to exactly `1`. -/
theorem c9_summary_distribution_sums_to_one (p : TherapyEmotionPipeline) :
    (p.session_data = [] → p.generate_session_summary = none) ∧
    ((∃ f ∈ p.session_data, f.face_detected = true) →
      ∃ s, p.generate_session_summary = some s ∧
        s.emotion_distribution =
          (p.session_data.map dominantOf).dedup.map
            (fun e => (e, ((p.session_data.map dominantOf).count e : ℚ) /
                            p.session_data.length)) ∧
        (s.emotion_distribution.map Prod.snd).sum = 1) := by
  constructor
  · intro h
    rw [TherapyEmotionPipeline.generate_session_summary, dif_pos h]
  · rintro ⟨f, hf, -⟩
    have hne : p.session_data ≠ [] := List.ne_nil_of_mem hf
    rw [TherapyEmotionPipeline.generate_session_summary, dif_neg hne]
    refine ⟨_, rfl, rfl, ?_⟩
    have hemo : p.session_data.map dominantOf ≠ [] := by
      simpa using hne
    have := dedup_count_ratio_sum (p.session_data.map dominantOf) hemo
    simpa [List.map_map, Function.comp, List.length_map] using this

/-- C9 witness: the summary theorem instantiated at a fresh pipeline (empty
sequence) and at a pipeline holding one face-detected record. -/
theorem c9_summary_witness :
    (TherapyEmotionPipeline.init 7).generate_session_summary = none ∧
    (∃ s, samplePipeline.generate_session_summary = some s ∧
        s.emotion_distribution =
          (samplePipeline.session_data.map dominantOf).dedup.map
            (fun e => (e, ((samplePipeline.session_data.map dominantOf).count e : ℚ) /
                            samplePipeline.session_data.length)) ∧
        (s.emotion_distribution.map Prod.snd).sum = 1) :=
  ⟨(c9_summary_distribution_sums_to_one (TherapyEmotionPipeline.init 7)).1 rfl,
   (c9_summary_distribution_sums_to_one samplePipeline).2
     ⟨sampleFaceFrame, by simp [samplePipeline], rfl⟩⟩

/-- Membership of a key in the store is what the Python `in` / `any` test on
the dictionary decides. -/
theorem any_key_iff_mem (s : SessionStore) (k : String) :
    s.any (fun p => p.1 = k) = true ↔ k ∈ s.map Prod.fst := by
  simp [List.any_eq_true, List.mem_map]

/-- Dictionary assignment leaves the key list unchanged when the key is
present and appends the key otherwise. -/
theorem keys_dictSet (s : SessionStore) (k : String) (v : SessionEntry) :
    (dictSet s k v).map Prod.fst =
      if s.any (fun p => p.1 = k) then s.map Prod.fst
      else s.map Prod.fst ++ [k] := by
  unfold dictSet
  split
  · rw [List.map_map]
    apply List.map_congr_left
    intro p _
    by_cases hp : p.1 = k
    · simp [hp]
    · simp [hp]
  · simp

/-- The frame route's store mutation never changes the key list. -/
theorem keys_analyze_frame (s : SessionStore) (sid : String) (inp : FrameInput) :
    (analyze_frame s sid inp).map Prod.fst = s.map Prod.fst := by
  unfold analyze_frame
  rw [List.map_map]
  apply List.map_congr_left
  intro p _
  by_cases hp : p.1 = sid
  · simp [hp]
  · simp [hp]

/-- Every store state reachable through the emotion routes has pairwise
distinct session identifiers. -/
theorem reachable_keys_nodup (s : SessionStore) (h : Reachable s) :
    (s.map Prod.fst).Nodup := by
  induction h with
  | empty => simp
  | start s sid uid t _ ih =>
      unfold start_emotion_tracking
      rw [keys_dictSet]
      by_cases hany : s.any (fun p => p.1 = sid) = true
      · rw [if_pos hany]
        exact ih
      · rw [if_neg hany]
        have hnot : sid ∉ s.map Prod.fst := fun hmem =>
          hany ((any_key_iff_mem s sid).mpr hmem)
        simp [List.nodup_append, ih, hnot]
  | frame s sid inp _ ih =>
      rw [keys_analyze_frame]
      exact ih
  | stop s sid _ ih =>
      unfold stop_emotion_tracking dictDel
      exact ih.sublist ((List.filter_sublist s).map Prod.fst)

/-- Replacing a present key's binding in place puts the new binding where the
key first occurs, so a lookup by that key finds exactly it. -/
theorem find?_map_set (s : SessionStore) (k : String) (v : SessionEntry)
    (hmem : ∃ p ∈ s, p.1 = k) :
    (s.map (fun p => if p.1 = k then (k, v) else p)).find? (fun p => p.1 = k)
      = some (k, v) := by
  induction s with
  | nil => simp at hmem
  | cons q s ih =>
      by_cases hq : q.1 = k
      · simp only [List.map_cons, if_pos hq]
        rw [List.find?_cons_of_pos _ (by simp)]
      · simp only [List.map_cons, if_neg hq]
        rw [List.find?_cons_of_neg _ (by simp [hq])]
        apply ih
        obtain ⟨p, hp, hpk⟩ := hmem
        rcases List.mem_cons.mp hp with h1 | h2
        · exact absurd (h1 ▸ hpk) hq
        · exact ⟨p, h2, hpk⟩

/-- Appending a fresh binding for an absent key makes a lookup by that key
find exactly it. -/
theorem find?_append_absent (s : SessionStore) (k : String) (v : SessionEntry)
    (habs : s.any (fun p => p.1 = k) = false) :
    ((s ++ [(k, v)]).find? (fun p => p.1 = k)) = some (k, v) := by
  induction s with
  | nil => simp
  | cons q s ih =>
      rw [List.any_cons, Bool.or_eq_false_iff] at habs
      have hq : ¬ q.1 = k := by
        have := habs.1
        simpa using this
      rw [List.cons_append, List.find?_cons_of_neg _ (by simp [hq])]
      exact ih habs.2

/-- C4: at every store state reachable through the emotion routes, each
session identifier is bound at most once (so two independent buffer states
never both accept frames for one identifier), and a second
`start_emotion_tracking` for an identifier that is already tracking
supersedes the existing state: afterwards the identifier is still bound
exactly once, and the lookup yields exactly the fresh entry with a new
pipeline and empty buffers. -/
theorem c4_unique_session_state (s : SessionStore) (h : Reachable s) :
    (∀ sid : String, (s.map Prod.fst).count sid ≤ 1) ∧
    (∀ (sid uid : String) (t : ℚ),
      dictLookup (start_emotion_tracking s sid uid t) sid = some (freshEntry uid t) ∧
      ((start_emotion_tracking s sid uid t).map Prod.fst).count sid = 1) := by
  have hnodup := reachable_keys_nodup s h
  refine ⟨fun sid => List.nodup_iff_count_le_one.mp hnodup sid, fun sid uid t => ?_⟩
  have hlook : dictLookup (start_emotion_tracking s sid uid t) sid
      = some (freshEntry uid t) := by
    unfold start_emotion_tracking dictLookup dictSet
    by_cases hany : s.any (fun p => p.1 = sid) = true
    · rw [if_pos hany]
      have hmem : ∃ p ∈ s, p.1 = sid := by
        have := (any_key_iff_mem s sid).mp hany
        obtain ⟨p, hp, hpk⟩ := List.mem_map.mp this
        exact ⟨p, hp, hpk⟩
      rw [find?_map_set s sid (freshEntry uid t) hmem]
      rfl
    · rw [if_neg hany]
      rw [find?_append_absent s sid (freshEntry uid t) (Bool.not_eq_true _ |>.mp hany)]
      rfl
  have hmem2 : sid ∈ (start_emotion_tracking s sid uid t).map Prod.fst := by
    unfold start_emotion_tracking
    rw [keys_dictSet]
    by_cases hany : s.any (fun p => p.1 = sid) = true
    · rw [if_pos hany]
      exact (any_key_iff_mem s sid).mp hany
    · rw [if_neg hany]
      exact List.mem_append_right _ (List.mem_singleton.mpr rfl)
  have hn2 := reachable_keys_nodup _ (Reachable.start s sid uid t h)
  exact ⟨hlook, List.count_eq_one_of_mem hn2 hmem2⟩

/-- C4 witness: starting `"S1"` twice in a row from the empty store leaves a
single binding for `"S1"`, holding the second (fresh) entry. -/
theorem c4_unique_session_state_witness :
    dictLookup
        (start_emotion_tracking (start_emotion_tracking [] "S1" "T1" 0) "S1" "T2" 1) "S1"
      = some (freshEntry "T2" 1) ∧
    ((start_emotion_tracking (start_emotion_tracking [] "S1" "T1" 0) "S1" "T2" 1).map
        Prod.fst).count "S1" = 1 :=
  (c4_unique_session_state (start_emotion_tracking [] "S1" "T1" 0)
      (Reachable.start [] "S1" "T1" 0 Reachable.empty)).2 "S1" "T2" 1

end TherapyEmotion
